import Mathlib

/-!
Verification of the conversation-routing and session-state engine of the
repository (backend/memory.py, backend/router.py, backend/column_disambiguator.py,
backend/visualization_detector.py, backend/agents/sql_agent.py,
backend/agents/csv_agent_wrapper.py).

Python strings are modelled as `List Char` (`Str`).  Python string slicing,
`str.find`, the substring test `a in b`, `str.lower`, `str.split`, `str.strip`
and `str.title` are modelled by the executable functions below.  `str.lower`
is modelled as the character-wise ASCII lowering map: every string literal the
embedded code compares against is ASCII or Arabic, and Python lowering is the
identity on Arabic letters.  Clock reads (`time.time()`) are modelled by an
explicit `now : Nat` argument passed to every method of the source that calls
`time.time()`.
-/

/-- Python strings are modelled as lists of characters. -/
abbrev Str := List Char

/-- Coerce a Lean string literal to the `Str` model. -/
def chars (s : String) : Str := s.data

/-- Character-wise model of `str.lower` for a single character (ASCII range;
identity elsewhere, matching Python on the Arabic letters used in the source). -/
def lowerChar (c : Char) : Char :=
  if 65 ≤ c.toNat ∧ c.toNat ≤ 90 then Char.ofNat (c.toNat + 32) else c

/-- Model of Python `str.lower`. -/
def lower (s : Str) : Str := s.map lowerChar

/-- Model of Python `str.find`: index of the first occurrence of `needle`,
`none` when absent (Python returns `-1` there). -/
def pyFind (needle : Str) : Str → Option Nat
  | [] => if needle = [] then some 0 else none
  | c :: t => if needle.isPrefixOf (c :: t) then some 0 else (pyFind needle t).map (· + 1)

/-- Model of the Python substring test `needle in haystack`. -/
def isSubstring (needle haystack : Str) : Bool := (pyFind needle haystack).isSome

/-- Model of the Python idiom `any(k in text for k in keywords)`. -/
def anyKeywordIn (keywords : List Str) (text : Str) : Bool :=
  keywords.any (fun k => isSubstring k text)

/-- Model of Python `col.replace("_", " ")` (single-character replacement). -/
def underscoresToSpaces (s : Str) : Str :=
  s.map (fun c => if c = '_' then ' ' else c)

/-- ASCII whitespace test used to model Python `str.strip`. -/
def isSpaceChar (c : Char) : Bool := c = ' ' ∨ c = '\t' ∨ c = '\n' ∨ c = '\r'

/-- Model of Python `str.strip()` (whitespace on both ends). -/
def pyStrip (s : Str) : Str :=
  ((s.dropWhile isSpaceChar).reverse.dropWhile isSpaceChar).reverse

/-- Uppering map for a single ASCII character, used to model `str.title`. -/
def upperChar (c : Char) : Char :=
  if 97 ≤ c.toNat ∧ c.toNat ≤ 122 then Char.ofNat (c.toNat - 32) else c

/-- ASCII letter test (Python `str.title` treats cased characters as word parts;
the embedded vocabulary is ASCII/Arabic and Arabic letters are uncased in the
relevant sense, so the ASCII test is faithful on the data the source handles). -/
def isAlphaChar (c : Char) : Bool :=
  (65 ≤ c.toNat ∧ c.toNat ≤ 90) ∨ (97 ≤ c.toNat ∧ c.toNat ≤ 122)

/-- Worker for `pyTitle`: `prevCased` records whether the previous character
was a cased letter. -/
def pyTitleGo : Bool → Str → Str
  | _, [] => []
  | prevCased, c :: t =>
    if isAlphaChar c then
      (if prevCased then lowerChar c else upperChar c) :: pyTitleGo true t
    else
      c :: pyTitleGo false t

/-- Model of Python `str.title()`. -/
def pyTitle (s : Str) : Str := pyTitleGo false s

/-- Worker for `pySplit` with explicit fuel (the remainder shrinks at every
step for a non-empty separator, so `s.length` steps suffice). -/
def pySplitGo (sep : Str) : Nat → Str → List Str
  | 0, s => [s]
  | fuel + 1, s =>
    match pyFind sep s with
    | none => [s]
    | some p => s.take p :: pySplitGo sep fuel (s.drop (p + sep.length))

/-- Model of Python `str.split(sep)` for a non-empty separator. -/
def pySplit (sep s : Str) : List Str := pySplitGo sep s.length s

/-- Model of Python `sep.join(items)`. -/
def joinSep (sep : Str) : List Str → Str
  | [] => []
  | [x] => x
  | x :: y :: t => x ++ sep ++ joinSep sep (y :: t)

/-- Decimal rendering of a natural number, modelling Python `str(n)`. -/
def natChars (n : Nat) : Str := (toString n).data

/-- Decimal rendering of an integer, modelling Python `str(i)`. -/
def intChars (i : Int) : Str := (toString i).data

theorem toNat_ofNat_small (n : Nat) (h : n < 0xd800) : (Char.ofNat n).toNat = n := by
  unfold Char.ofNat
  rw [dif_pos (Or.inl h)]
  simp [Char.ofNatAux, Char.toNat, UInt32.toNat, UInt32.ofNatCore]

theorem lowerChar_lowerChar (c : Char) : lowerChar (lowerChar c) = lowerChar c := by
  unfold lowerChar
  by_cases h : 65 ≤ c.toNat ∧ c.toNat ≤ 90
  · rw [if_pos h]
    have hv : (Char.ofNat (c.toNat + 32)).toNat = c.toNat + 32 :=
      toNat_ofNat_small _ (by omega)
    rw [if_neg (by omega : ¬(65 ≤ (Char.ofNat (c.toNat + 32)).toNat ∧
      (Char.ofNat (c.toNat + 32)).toNat ≤ 90))]
  · rw [if_neg h, if_neg h]

theorem lower_lower (s : Str) : lower (lower s) = lower s := by
  unfold lower
  rw [List.map_map]
  exact List.map_congr_left (fun c _ => lowerChar_lowerChar c)

theorem lower_length (s : Str) : (lower s).length = s.length := List.length_map s lowerChar

theorem lower_append (a b : Str) : lower (a ++ b) = lower a ++ lower b := List.map_append _ a b

/-- Soundness of `pyFind`: a hit decomposes the haystack at the reported index. -/
theorem pyFind_some (needle haystack : Str) (p : Nat) (h : pyFind needle haystack = some p) :
    haystack = haystack.take p ++ needle ++ haystack.drop (p + needle.length) ∧
    p + needle.length ≤ haystack.length := by
  induction haystack generalizing p with
  | nil =>
    unfold pyFind at h
    by_cases hn : needle = ([] : Str)
    · rw [if_pos hn] at h
      cases h
      simp [hn]
    · rw [if_neg hn] at h
      cases h
  | cons c t ih =>
    unfold pyFind at h
    by_cases hp : needle.isPrefixOf (c :: t)
    · rw [if_pos hp] at h
      cases h
      have hpre : needle <+: c :: t := List.isPrefixOf_iff_prefix.mp hp
      obtain ⟨post, hpost⟩ := hpre
      constructor
      · simp [← hpost]
      · have hlen : needle.length + post.length = (c :: t).length := by
          rw [← hpost]; simp
        simp only [List.length_cons] at hlen ⊢
        omega
    · rw [if_neg hp] at h
      cases hq : pyFind needle t with
      | none => rw [hq] at h; cases h
      | some q =>
        rw [hq] at h
        simp at h
        obtain ⟨hq1, hq2⟩ := ih q hq
        subst h
        constructor
        · show c :: t = (c :: t).take (q + 1) ++ needle ++ (c :: t).drop (q + 1 + needle.length)
          have h1 : q + 1 + needle.length = (q + needle.length) + 1 := by omega
          rw [h1, List.take_succ_cons, List.drop_succ_cons]
          simp only [List.cons_append, List.append_assoc]
          have := congrArg (List.cons c) hq1
          simpa using this
        · simp only [List.length_cons]
          omega

/-- Completeness of `pyFind`: it never misses an occurrence. -/
theorem pyFind_isSome_of_decomp (needle pre post : Str) :
    (pyFind needle (pre ++ needle ++ post)).isSome = true := by
  induction pre with
  | nil =>
    simp only [List.nil_append]
    cases needle with
    | nil =>
      cases post with
      | nil => simp [pyFind]
      | cons c t => simp [pyFind, List.isPrefixOf]
    | cons c t =>
      rw [List.cons_append]
      unfold pyFind
      rw [if_pos (List.isPrefixOf_iff_prefix.mpr ⟨post, by simp⟩)]
      rfl
  | cons c t ih =>
    simp only [List.cons_append]
    unfold pyFind
    by_cases hp : needle.isPrefixOf (c :: (t ++ needle ++ post))
    · rw [if_pos hp]; rfl
    · rw [if_neg hp]
      simp only [List.append_assoc] at ih ⊢
      cases hq : pyFind needle (t ++ (needle ++ post)) with
      | none => rw [hq] at ih; simp at ih
      | some q => simp [hq]

/-!
## Data values

Cell values of tabular results.  Numeric payloads (Python `int`/`float`) are
modelled as `Int`: the embedded logic only ever inspects a number's type and
its truthiness, never float-specific behaviour.
-/

/-- Model of the Python values stored in result rows: strings, numbers
(`int`/`float`, collapsed to `Int`) and `None`. -/
inductive Value where
  | vstr (s : Str)
  | vnum (n : Int)
  | vnone
deriving DecidableEq, Repr

/-- Model of Python truthiness (`if val:`) on `Value`. -/
def pyTruthy : Value → Bool
  | .vstr s => s ≠ []
  | .vnum n => n ≠ 0
  | .vnone => false

/-- Model of Python `str(val)` on `Value` (numeric payloads are integers, so
`str` is the decimal rendering; `str(None)` is the literal `None`). -/
def pyStr : Value → Str
  | .vstr s => s
  | .vnum n => intChars n
  | .vnone => chars "None"

/-- A key-column entry of a multi-row result context: the source stores a bare
scalar when exactly one value was collected and a list otherwise. -/
inductive CtxVal where
  | one (v : Value)
  | many (vs : List Value)
deriving DecidableEq, Repr

/-- The list of values held by a `CtxVal` (used to state properties). -/
def ctxValList : CtxVal → List Value
  | .one v => [v]
  | .many vs => vs

/-- Model of the result-context dicts built by the agents
(`{"type": "single_result", ...}` / `{"type": "multi_result", ...}`);
dict fields become constructor arguments, insertion-ordered dicts become
association lists. -/
inductive ResultContext where
  | single (values : List (Str × Value))
  | multi (count : Nat) (key_values : List (Str × CtxVal))
deriving DecidableEq, Repr

/-- Model of the pending-disambiguation dict stored in a session. -/
structure PendingDisambiguation where
  original_query : Str
  ambiguous_term : Str
deriving DecidableEq, Repr

/-!
## memory.py — SessionMemory

Each method of `SessionMemory` that calls `time.time()` (directly or through
`_update_access_time`) takes the clock value as an explicit `now` argument.
State-mutating methods return the updated session; methods that also return a
value return a pair.  `langchain` `HumanMessage`/`AIMessage` objects are
modelled as a role plus content.
-/

/-- SESSION_TTL_SECONDS from memory.py. -/
def SESSION_TTL_SECONDS : Nat := 3600

/-- MAX_MESSAGES_PER_SESSION from memory.py. -/
def MAX_MESSAGES_PER_SESSION : Nat := 50

/-- Message role: `HumanMessage` or `AIMessage`. -/
inductive Role where
  | user
  | ai
deriving DecidableEq, Repr

/-- A history entry (a `HumanMessage` or `AIMessage` with its content). -/
structure Msg where
  role : Role
  content : Str
deriving DecidableEq, Repr

/-- Model of the `SessionMemory` object state. -/
structure SessionMemory where
  history : List Msg
  last_accessed : Nat
  last_route : Option Str
  pending_disambiguation : Option PendingDisambiguation
  last_result_context : Option ResultContext
deriving DecidableEq, Repr

/-- Model of `SessionMemory.__init__` (called at clock value `now`). -/
def SessionMemory.init (now : Nat) : SessionMemory :=
  { history := []
    last_accessed := now
    last_route := none
    pending_disambiguation := none
    last_result_context := none }

/-- Model of `SessionMemory._trim_history`: keep only the last
`MAX_MESSAGES_PER_SESSION` messages (`history[-MAX:]`). -/
def _trim_history (h : List Msg) : List Msg :=
  if MAX_MESSAGES_PER_SESSION < h.length then h.drop (h.length - MAX_MESSAGES_PER_SESSION) else h

/-- Model of `SessionMemory.add_user`: update access time, append the
user message truncated to 10000 characters (`text[:10000]`), trim. -/
def SessionMemory.add_user (s : SessionMemory) (text : Str) (now : Nat) : SessionMemory :=
  { s with
    last_accessed := now
    history := _trim_history (s.history ++ [⟨Role.user, text.take 10000⟩]) }

/-- Model of `SessionMemory.add_ai`: update access time, append the AI message
truncated to 50000 characters (`text[:50000]`), trim. -/
def SessionMemory.add_ai (s : SessionMemory) (text : Str) (now : Nat) : SessionMemory :=
  { s with
    last_accessed := now
    history := _trim_history (s.history ++ [⟨Role.ai, text.take 50000⟩]) }

/-- Model of `SessionMemory.get`: formatted conversation history; updates the
access time. -/
def SessionMemory.get (s : SessionMemory) (now : Nat) : Str × SessionMemory :=
  ( if s.history = [] then []
    else joinSep (chars "\n")
      (s.history.map (fun m =>
        (if m.role = Role.user then chars "User: " else chars "AI: ") ++ m.content))
  , { s with last_accessed := now } )

/-- Model of `SessionMemory.get_messages`: raw message objects; updates the
access time. -/
def SessionMemory.get_messages (s : SessionMemory) (now : Nat) : List Msg × SessionMemory :=
  (s.history, { s with last_accessed := now })

/-- Model of `SessionMemory.clear`: reset history, route, pending state and
context; updates the access time. -/
def SessionMemory.clear (s : SessionMemory) (now : Nat) : SessionMemory :=
  { history := []
    last_accessed := now
    last_route := none
    pending_disambiguation := none
    last_result_context := none }

/-- Model of `SessionMemory.set_pending_disambiguation`; updates the access
time. -/
def SessionMemory.set_pending_disambiguation (s : SessionMemory)
    (data : PendingDisambiguation) (now : Nat) : SessionMemory :=
  { s with pending_disambiguation := some data, last_accessed := now }

/-- Model of `SessionMemory.get_pending_disambiguation`: a plain read, no
access-time update in the source. -/
def SessionMemory.get_pending_disambiguation (s : SessionMemory) :
    Option PendingDisambiguation × SessionMemory :=
  (s.pending_disambiguation, s)

/-- Model of `SessionMemory.clear_pending_disambiguation`: clears the pending
state; the source does not update the access time here. -/
def SessionMemory.clear_pending_disambiguation (s : SessionMemory) : SessionMemory :=
  { s with pending_disambiguation := none }

/-- Model of `SessionMemory.has_pending_disambiguation`: a plain read, no
access-time update in the source. -/
def SessionMemory.has_pending_disambiguation (s : SessionMemory) : Bool × SessionMemory :=
  (s.pending_disambiguation.isSome, s)

/-- Model of `SessionMemory.set_last_result_context`; updates the access time. -/
def SessionMemory.set_last_result_context (s : SessionMemory) (context : ResultContext)
    (now : Nat) : SessionMemory :=
  { s with last_result_context := some context, last_accessed := now }

/-- Model of `SessionMemory.get_last_result_context`: a plain read, no
access-time update in the source. -/
def SessionMemory.get_last_result_context (s : SessionMemory) :
    Option ResultContext × SessionMemory :=
  (s.last_result_context, s)

/-- Rendering of one key-value line of `get_context_summary` for multi-row
contexts: lists render the first three values, scalars render directly. -/
def contextSummaryLine (col : Str) (cv : CtxVal) : Str :=
  match cv with
  | .many vs =>
    chars "- " ++ col ++ chars " (first values): " ++
      joinSep (chars ", ") ((vs.take 3).map pyStr)
  | .one v => chars "- " ++ col ++ chars ": " ++ pyStr v

/-- Model of `SessionMemory.get_context_summary`: a formatted summary of the
last result context; the source does not update the access time here. -/
def SessionMemory.get_context_summary (s : SessionMemory) : Str × SessionMemory :=
  ( match s.last_result_context with
    | none => []
    | some ctx =>
      let lines : List Str :=
        match ctx with
        | .single values =>
          chars "## Previous Query Result Context:" ::
            values.map (fun p => chars "- " ++ p.1 ++ chars ": " ++ pyStr p.2)
        | .multi count key_values =>
          chars "## Previous Query Result Context:" ::
            (chars "- Result count: " ++ natChars count ++ chars " records") ::
            key_values.map (fun p => contextSummaryLine p.1 p.2)
      if 1 < lines.length then joinSep (chars "\n") lines else []
  , s )

/-- Model of `SessionMemory.set_route`; updates the access time. -/
def SessionMemory.set_route (s : SessionMemory) (route : Str) (now : Nat) : SessionMemory :=
  { s with last_route := some route, last_accessed := now }

/-- Model of `SessionMemory.get_route`: a plain read, no access-time update in
the source. -/
def SessionMemory.get_route (s : SessionMemory) : Option Str × SessionMemory :=
  (s.last_route, s)

/-- Model of `SessionMemory.is_expired` (checked at clock value `now`). -/
def SessionMemory.is_expired (s : SessionMemory) (now : Nat) : Bool :=
  SESSION_TTL_SECONDS < now - s.last_accessed

/-!
## column_disambiguator.py

The ambiguous-term dicts become insertion-ordered association lists, matching
the guaranteed iteration order of Python dicts.
-/

/-- One entry value of an ambiguous-term table. -/
structure TermEntry where
  columns : List Str
  question : Str
  descriptions : List (Str × Str)
deriving DecidableEq, Repr

/-- SQL_AMBIGUOUS_TERMS from column_disambiguator.py, insertion order. -/
def SQL_AMBIGUOUS_TERMS : List (Str × TermEntry) :=
  [ (chars "quantity",
     { columns := [chars "Requested Quantity", chars "Actual Quantity"]
       question := chars "Which quantity do you mean?"
       descriptions :=
         [ (chars "Requested Quantity", chars "The quantity requested for delivery")
         , (chars "Actual Quantity", chars "The actual delivered quantity") ] })
  , (chars "الكمية",
     { columns := [chars "Requested Quantity", chars "Actual Quantity"]
       question := chars "أي كمية تقصد؟"
       descriptions :=
         [ (chars "Requested Quantity", chars "الكمية المطلوبة للتسليم")
         , (chars "Actual Quantity", chars "الكمية الفعلية المسلمة") ] })
  , (chars "date",
     { columns := [chars "Scheduled Date", chars "Actual Date", chars "Loading Date"]
       question := chars "Which date do you mean?"
       descriptions :=
         [ (chars "Scheduled Date", chars "The scheduled delivery date")
         , (chars "Actual Date", chars "The actual delivery date")
         , (chars "Loading Date", chars "The date when loading occurred") ] })
  , (chars "تاريخ",
     { columns := [chars "Scheduled Date", chars "Actual Date", chars "Loading Date"]
       question := chars "أي تاريخ تقصد؟"
       descriptions :=
         [ (chars "Scheduled Date", chars "تاريخ التسليم المجدول")
         , (chars "Actual Date", chars "تاريخ التسليم الفعلي")
         , (chars "Loading Date", chars "تاريخ التحميل") ] })
  , (chars "name",
     { columns := [chars "Contractor Name", chars "Plant Name", chars "Power Plant Name"]
       question := chars "Which name do you mean?"
       descriptions :=
         [ (chars "Contractor Name", chars "The name of the contractor/vendor")
         , (chars "Plant Name", chars "The source plant name")
         , (chars "Power Plant Name", chars "The destination power plant") ] })
  , (chars "اسم",
     { columns := [chars "Contractor Name", chars "Plant Name", chars "Power Plant Name"]
       question := chars "أي اسم تقصد؟"
       descriptions :=
         [ (chars "Contractor Name", chars "اسم المقاول")
         , (chars "Plant Name", chars "اسم المصنع المصدر")
         , (chars "Power Plant Name", chars "اسم محطة الطاقة") ] })
  , (chars "status",
     { columns := [chars "Waybill Status", chars "Delivery Status"]
       question := chars "Which status do you mean?"
       descriptions :=
         [ (chars "Waybill Status", chars "Current status of the waybill")
         , (chars "Delivery Status", chars "Delivery completion status") ] })
  , (chars "حالة",
     { columns := [chars "Waybill Status", chars "Delivery Status"]
       question := chars "أي حالة تقصد؟"
       descriptions :=
         [ (chars "Waybill Status", chars "حالة بوليصة الشحن الحالية")
         , (chars "Delivery Status", chars "حالة اكتمال التسليم") ] }) ]

/-- CSV_AMBIGUOUS_TERMS from column_disambiguator.py, insertion order. -/
def CSV_AMBIGUOUS_TERMS : List (Str × TermEntry) :=
  [ (chars "duration",
     { columns := [chars "dwell_hrs", chars "dwell_minutes"]
       question := chars "Which duration format do you prefer?"
       descriptions :=
         [ (chars "dwell_hrs", chars "Duration in hours (e.g., 2.5 hours)")
         , (chars "dwell_minutes", chars "Duration in minutes (e.g., 150 minutes)") ] })
  , (chars "مدة",
     { columns := [chars "dwell_hrs", chars "dwell_minutes"]
       question := chars "أي صيغة للمدة تفضل؟"
       descriptions :=
         [ (chars "dwell_hrs", chars "المدة بالساعات")
         , (chars "dwell_minutes", chars "المدة بالدقائق") ] })
  , (chars "time",
     { columns := [chars "entry_time", chars "exit_time"]
       question := chars "Which time do you mean?"
       descriptions :=
         [ (chars "entry_time", chars "When the vehicle entered the zone")
         , (chars "exit_time", chars "When the vehicle exited the zone") ] })
  , (chars "وقت",
     { columns := [chars "entry_time", chars "exit_time"]
       question := chars "أي وقت تقصد؟"
       descriptions :=
         [ (chars "entry_time", chars "وقت دخول السيارة للمنطقة")
         , (chars "exit_time", chars "وقت خروج السيارة من المنطقة") ] }) ]

/-- Model of `is_already_specific(query, term, columns)`: the query already
names one of the candidate columns, verbatim or with underscores replaced by
spaces.  The `term` parameter is unused, exactly as in the source. -/
def is_already_specific (query : Str) (term : Str) (columns : List Str) : Bool :=
  columns.any (fun col =>
    isSubstring (lower col) (lower query) ||
    isSubstring (underscoresToSpaces (lower col)) (lower query))

/-- One option of a disambiguation offer. -/
structure DisambigOption where
  value : Str
  display : Str
  description : Str
deriving DecidableEq, Repr

/-- A disambiguation offer returned by the detect functions. -/
structure DisambigOffer where
  ambiguous_term : Str
  question : Str
  options : List DisambigOption
deriving DecidableEq, Repr

/-- Shared loop body of `detect_sql_disambiguation` / `detect_csv_disambiguation`:
return the first table entry (in insertion order) whose term occurs in the
lowered query and is not already specific. -/
def detectFromTable : List (Str × TermEntry) → Str → Option DisambigOffer
  | [], _ => none
  | p :: rest, query =>
    if isSubstring p.1 (lower query) ∧ ¬ is_already_specific (lower query) p.1 p.2.columns then
      some
        { ambiguous_term := p.1
          question := p.2.question
          options := p.2.columns.map (fun col =>
            { value := col
              display := col
              description := (p.2.descriptions.lookup col).getD [] }) }
    else detectFromTable rest query

/-- Model of `detect_sql_disambiguation`. -/
def detect_sql_disambiguation (query : Str) : Option DisambigOffer :=
  detectFromTable SQL_AMBIGUOUS_TERMS query

/-- Model of `detect_csv_disambiguation`. -/
def detect_csv_disambiguation (query : Str) : Option DisambigOffer :=
  detectFromTable CSV_AMBIGUOUS_TERMS query

/-- Model of `combine_query_with_disambiguation`: replace the first
case-insensitive occurrence of the ambiguous term with the selected column, or
append `" (using {selected_column})"` when the term is not found. -/
def combine_query_with_disambiguation (original_query ambiguous_term selected_column : Str) :
    Str :=
  match pyFind (lower ambiguous_term) (lower original_query) with
  | some pos =>
    original_query.take pos ++ selected_column ++
      original_query.drop (pos + ambiguous_term.length)
  | none => original_query ++ chars " (using " ++ selected_column ++ chars ")"

/-!
## router.py

The fast-path keyword tables, the deterministic part of `classify_query`, and
the model-assisted step.  The language-model call is modelled by an explicit
parameter `resp : Option ModelResp`: `some` carries the parsed JSON fields
(after the `data.get(...)` defaulting), `none` models a `json.JSONDecodeError`.
Prompt construction has no effect on the session or the returned value and is
not modelled.
-/

/-- CSV_ROUTE_KEYWORDS from router.py. -/
def CSV_ROUTE_KEYWORDS : List Str :=
  [ chars "driver_id", chars "vehicle_name", chars "zone_name", chars "dwell_hrs"
  , chars "dwell_minutes", chars "entry_time", chars "exit_time"
  , chars "dwell", chars "dwell time", chars "stay time", chars "stay duration"
  , chars "zone", chars "zones", chars "geofence", chars "geofences"
  , chars "driver", chars "drivers"
  , chars "vehicle", chars "vehicles", chars "truck", chars "trucks"
  , chars "trip", chars "trips", chars "visit", chars "visits"
  , chars "سائق", chars "سائقين"
  , chars "منطقة", chars "مناطق"
  , chars "سيارة", chars "سيارات", chars "شاحنة"
  , chars "رحلة", chars "رحلات" ]

/-- MATH_ROUTE_KEYWORDS from router.py. -/
def MATH_ROUTE_KEYWORDS : List Str :=
  [ chars "calculate", chars "compute", chars "math", chars "calculation"
  , chars "add", chars "subtract", chars "multiply", chars "divide"
  , chars "sum", chars "difference", chars "product", chars "quotient"
  , chars "plus", chars "minus", chars "times", chars "divided by"
  , chars "square root", chars "sqrt", chars "power", chars "exponent"
  , chars "percent", chars "percentage", chars "modulo", chars "remainder"
  , chars "factorial", chars "logarithm", chars "log", chars "sine", chars "cosine"
  , chars "tangent", chars "sin", chars "cos", chars "tan"
  , chars "حساب", chars "احسب", chars "حسابات"
  , chars "جمع", chars "طرح", chars "ضرب", chars "قسمة"
  , chars "زائد", chars "ناقص", chars "مضروب", chars "مقسوم"
  , chars "الجذر", chars "جذر تربيعي"
  , chars "النسبة المئوية", chars "المئوية"
  , chars "أس", chars "قوة" ]

/-- Model of `detect_route_from_column_terms`: math keywords first, then CSV
keywords, then the SQL ambiguous-term keys, then the CSV ambiguous-term
keys; the first matching table decides the route. -/
def detect_route_from_column_terms (query : Str) : Option Str :=
  let query_lower := lower query
  if anyKeywordIn MATH_ROUTE_KEYWORDS query_lower then some (chars "math")
  else if anyKeywordIn CSV_ROUTE_KEYWORDS query_lower then some (chars "csv")
  else if anyKeywordIn (SQL_AMBIGUOUS_TERMS.map (fun p => p.1)) query_lower then
    some (chars "sql")
  else if anyKeywordIn (CSV_AMBIGUOUS_TERMS.map (fun p => p.1)) query_lower then
    some (chars "csv")
  else none

/-- Parsed fields of the router model response, after the
`data.get("route" / "confidence" / "reason", ...)` defaulting. -/
structure ModelResp where
  route : Str
  confidence : Str
  reason : Str
deriving DecidableEq, Repr

/-- The classification result dict of `classify_query`. -/
structure ClassResult where
  route : Str
  confidence : Str
  reason : Str
deriving DecidableEq, Repr

/-- The closed route set `classify_query` validates against. -/
def validRoutes : List Str :=
  [chars "sql", chars "csv", chars "pdf", chars "math", chars "out_of_scope"]

/-- The follow-up indicator words checked against the model reason. -/
def followupIndicatorWords : List Str :=
  [chars "follow-up", chars "pronoun", chars "refer", chars "previous"
  , chars "context", chars "vague"]

/-- Model of `classify_query`.  `resp` is the (already parsed) model response,
`none` when `json.loads` raises.  The returned pair is the result dict and the
session state after the call: the fast path persists the route via `set_route`,
the model path only touches the access time through `get_messages`. -/
def classify_query (resp : Option ModelResp) (query : Str) (s : SessionMemory)
    (now : Nat) : ClassResult × SessionMemory :=
  match detect_route_from_column_terms query with
  | some r =>
    ( { route := r
        confidence := chars "high"
        reason := chars "Query contains column term that maps to " ++ r ++ chars " data source" }
    , s.set_route r now )
  | none =>
    let lastRoute := (s.get_route).1
    let s1 := (s.get_messages now).2
    let res : ClassResult :=
      match resp with
      | none =>
        { route := chars "out_of_scope"
          confidence := chars "low"
          reason := chars "Could not parse router response" }
      | some m =>
        let route0 := if m.route = chars "clarify" then chars "out_of_scope" else m.route
        let route := if route0 ∈ validRoutes then route0 else chars "out_of_scope"
        let confidence := if route0 ∈ validRoutes then m.confidence else chars "low"
        let reason := if route0 ∈ validRoutes then m.reason else chars "Invalid route returned"
        match lastRoute with
        | some lr =>
          if route = chars "out_of_scope" ∧ lr ≠ [] ∧
              anyKeywordIn followupIndicatorWords (lower reason) then
            { route := lr
              confidence := chars "medium"
              reason := chars "Detected as follow-up to previous " ++ lr ++ chars " query" }
          else { route := route, confidence := confidence, reason := reason }
        | none => { route := route, confidence := confidence, reason := reason }
    (res, s1)

/-!
## visualization_detector.py
-/

/-- Model of `isinstance(val, str)`. -/
def isStringVal : Value → Bool
  | .vstr _ => true
  | _ => false

/-- Model of `isinstance(val, (int, float))`. -/
def isNumberVal : Value → Bool
  | .vnum _ => true
  | _ => false

/-- Drop one leading sign character, for the float-literal recognizer. -/
def dropSignChar : Str → Str
  | [] => []
  | c :: t => if c = '+' ∨ c = '-' then t else c :: t

/-- ASCII digit test. -/
def isDigitChar (c : Char) : Bool := 48 ≤ c.toNat ∧ c.toNat ≤ 57

/-- Exponent tail of a float literal: empty, or `e` with optional sign and at
least one digit (input is already lowered). -/
def expTailOk : Str → Bool
  | [] => true
  | c :: r =>
    if c = 'e' then
      let r2 := dropSignChar r
      r2 ≠ [] ∧ r2.all isDigitChar
    else false

/-- Mantissa-plus-exponent of a float literal (sign already dropped). -/
def floatBody (t : Str) : Bool :=
  let intPart := t.takeWhile isDigitChar
  let rest := t.dropWhile isDigitChar
  match rest with
  | [] => intPart ≠ []
  | c :: r2 =>
    if c = '.' then
      let fracPart := r2.takeWhile isDigitChar
      let r3 := r2.dropWhile isDigitChar
      (intPart ≠ [] ∨ fracPart ≠ []) ∧ expTailOk r3
    else intPart ≠ [] ∧ expTailOk (c :: r2)

/-- Model of `float(s)` succeeding on a string: the usual decimal float
literals with optional sign/exponent and `inf`/`infinity`/`nan`
(case-insensitive, surrounding whitespace stripped).  Digit-group underscores
are not modelled; no claim depends on them. -/
def pyFloatable (s : Str) : Bool :=
  let t := dropSignChar (pyStrip (lower s))
  if t = chars "inf" ∨ t = chars "infinity" ∨ t = chars "nan" then true else floatBody t

/-- Model of `_is_numeric_value`: int/float, or a string `float()` accepts. -/
def _is_numeric_value : Value → Bool
  | .vnum _ => true
  | .vstr s => pyFloatable s
  | .vnone => false

/-- Model of the `VisualizationConfig` dataclass. -/
structure VisualizationConfig where
  should_visualize : Bool
  chart_type : Option Str
  x_axis : Option Str
  y_axis : Option Str
  y_axis_secondary : Option Str
  y_axis_list : Option (List Str)
  group_by : Option Str
  title : Option Str
deriving DecidableEq, Repr

/-- TIME_COLUMNS from visualization_detector.py. -/
def TIME_COLUMNS : List Str :=
  [ chars "date", chars "month", chars "year", chars "day", chars "week", chars "quarter"
  , chars "scheduled date", chars "actual date", chars "created date", chars "creation date"
  , chars "entry_time", chars "exit_time", chars "timestamp"
  , chars "scheduled_date", chars "actual_date", chars "created_date"
  , chars "تاريخ", chars "شهر", chars "سنة", chars "يوم" ]

/-- CATEGORY_COLUMNS from visualization_detector.py. -/
def CATEGORY_COLUMNS : List Str :=
  [ chars "vendor name", chars "vendor", chars "contractor", chars "contractor name"
  , chars "status", chars "waybill status", chars "waybill status desc"
  , chars "plant", chars "power plant", chars "power plant desc", chars "plant desc"
  , chars "fuel type", chars "fuel", chars "route", chars "route code", chars "route desc"
  , chars "zone_name", chars "zone", chars "driver_id", chars "driver"
  , chars "vehicle_name", chars "vehicle"
  , chars "مقاول", chars "حالة", chars "مصنع", chars "منطقة", chars "سائق", chars "سيارة" ]

/-- VALUE_COLUMNS from visualization_detector.py. -/
def VALUE_COLUMNS : List Str :=
  [ chars "count", chars "count(*)", chars "sum", chars "total", chars "avg"
  , chars "average", chars "mean"
  , chars "quantity", chars "requested quantity", chars "actual quantity"
  , chars "cost", chars "price", chars "amount", chars "value"
  , chars "dwell_hrs", chars "dwell_minutes", chars "duration", chars "hours", chars "minutes"
  , chars "عدد", chars "مجموع", chars "كمية", chars "متوسط" ]

/-- NO_VISUALIZATION_KEYWORDS from visualization_detector.py. -/
def NO_VISUALIZATION_KEYWORDS : List Str :=
  [ chars "list", chars "show all", chars "give me all", chars "display all"
  , chars "all records"
  , chars "details", chars "detail", chars "information", chars "info"
  , chars "records", chars "entries", chars "items"
  , chars "waybill number", chars "specific", chars "particular"
  , chars "which", chars "what are the", chars "what is the", chars "show me the"
  , chars "assigned to", chars "belongs to", chars "related to", chars "for contractor"
  , chars "for vendor"
  , chars "find", chars "search", chars "lookup", chars "get the"
  , chars "قائمة", chars "كل", chars "تفاصيل", chars "سجلات", chars "أي", chars "ما هي" ]

/-- VISUALIZATION_KEYWORDS from visualization_detector.py. -/
def VISUALIZATION_KEYWORDS : List Str :=
  [ chars "count", chars "total", chars "sum", chars "average", chars "how many"
  , chars "compare", chars "comparison", chars "versus", chars "vs"
  , chars "breakdown", chars "distribution", chars "split"
  , chars "trend", chars "over time", chars "monthly", chars "daily", chars "weekly"
  , chars "yearly"
  , chars "top", chars "bottom", chars "highest", chars "lowest", chars "best"
  , chars "worst", chars "rank"
  , chars "عدد", chars "مجموع", chars "مقارنة", chars "توزيع", chars "أعلى", chars "أقل" ]

/-- EXPLICIT_CHART_KEYWORDS from visualization_detector.py. -/
def EXPLICIT_CHART_KEYWORDS : List Str :=
  [ chars "show in chart", chars "show chart", chars "in chart", chars "as chart"
  , chars "visualize", chars "visualization", chars "graph", chars "plot"
  , chars "show in graph", chars "as graph", chars "display chart"
  , chars "رسم بياني", chars "مخطط" ]

/-- Model of `_normalize_column`: lower, strip, underscores and dashes to
spaces. -/
def _normalize_column (col : Str) : Str :=
  (underscoresToSpaces (pyStrip (lower col))).map (fun c => if c = '-' then ' ' else c)

/-- Model of `_is_time_column`. -/
def _is_time_column (col : Str) : Bool :=
  anyKeywordIn TIME_COLUMNS (_normalize_column col)

/-- Model of `_is_category_column`. -/
def _is_category_column (col : Str) : Bool :=
  anyKeywordIn CATEGORY_COLUMNS (_normalize_column col)

/-- Model of `_is_value_column`. -/
def _is_value_column (col : Str) : Bool :=
  anyKeywordIn VALUE_COLUMNS (_normalize_column col)

/-- Model of `_should_skip_visualization`: explicit chart requests override
everything, aggregation keywords override the raw-data keywords, raw-data
keywords suppress, default is to allow. -/
def _should_skip_visualization (query : Str) : Bool :=
  let query_lower := lower query
  if anyKeywordIn EXPLICIT_CHART_KEYWORDS query_lower then false
  else if anyKeywordIn VISUALIZATION_KEYWORDS query_lower then false
  else if anyKeywordIn NO_VISUALIZATION_KEYWORDS query_lower then true
  else false

/-- Column classification of `_detect_column_types` (append order preserved;
the source checks time, then value, then category, then other). -/
structure ColTypes where
  time : List Str
  value : List Str
  category : List Str
  other : List Str
deriving DecidableEq, Repr

/-- Model of `_detect_column_types`. -/
def _detect_column_types (columns : List Str) : ColTypes :=
  { time := columns.filter (fun c => _is_time_column c)
    value := columns.filter (fun c => ¬ _is_time_column c ∧ _is_value_column c)
    category := columns.filter
      (fun c => ¬ _is_time_column c ∧ ¬ _is_value_column c ∧ _is_category_column c)
    other := columns.filter
      (fun c => ¬ _is_time_column c ∧ ¬ _is_value_column c ∧ ¬ _is_category_column c) }

/-- Model of `_generate_title`.  The `"for" ... total/count/sum/average`
branch of the source returns the same string as the default branch; it is kept
for structure. -/
def _generate_title (query chart_type x_axis y_axis : Str) : Str :=
  let query_lower := lower query
  let byParts := pySplit (chars "by") query
  let perParts := pySplit (chars "per") query
  if isSubstring (chars "by") query_lower ∧ 2 ≤ byParts.length then
    pyTitle (pyStrip (byParts.getD 0 [])) ++ chars " by " ++ pyTitle (pyStrip (byParts.getD 1 []))
  else if isSubstring (chars "per") query_lower ∧ 2 ≤ perParts.length then
    pyTitle (pyStrip (perParts.getD 0 [])) ++ chars " per " ++
      pyTitle (pyStrip (perParts.getD 1 []))
  else if isSubstring (chars "for") query_lower ∧
      anyKeywordIn [chars "total", chars "count", chars "sum", chars "average"] query_lower then
    y_axis ++ chars " by " ++ x_axis
  else
    y_axis ++ chars " by " ++ x_axis

/-- Model of `_no_visualization`. -/
def _no_visualization : VisualizationConfig :=
  { should_visualize := false
    chart_type := none
    x_axis := none
    y_axis := none
    y_axis_secondary := none
    y_axis_list := none
    group_by := none
    title := none }

/-- Row-count bucketing used (verbatim, three times) by the source:
horizontal bar above 10 rows, pie up to 6, bar in between. -/
def rowCountChartType (num_rows : Nat) : Str :=
  if 10 < num_rows then chars "horizontal_bar"
  else if num_rows ≤ 6 then chars "pie"
  else chars "bar"

/-- CASE 3 of `detect_visualization`: two-column string + single-number shape;
`none` models falling through to the next case (including the explicit
`pass` when two or more numeric columns are present). -/
def vizCase3 (columns : List Str) (first_row : List Value) (num_rows : Nat)
    (query : Str) : Option VisualizationConfig :=
  if 2 ≤ columns.length ∧ 2 ≤ first_row.length then
    let first_val := first_row.getD 0 Value.vnone
    let second_val := first_row.getD 1 Value.vnone
    if isStringVal first_val ∧ _is_numeric_value second_val then
      let numeric_col_count := ((first_row.drop 1).filter (fun v => _is_numeric_value v)).length
      if 2 ≤ numeric_col_count then none
      else
        let x_axis := columns.getD 0 []
        let y_axis := columns.getD 1 []
        if _is_time_column x_axis then
          some { should_visualize := true
                 chart_type := some (chars "line")
                 x_axis := some x_axis
                 y_axis := some y_axis
                 y_axis_secondary := none
                 y_axis_list := none
                 group_by := none
                 title := some (_generate_title query (chars "line") x_axis y_axis) }
        else
          some { should_visualize := true
                 chart_type := some (rowCountChartType num_rows)
                 x_axis := some x_axis
                 y_axis := some y_axis
                 y_axis_secondary := none
                 y_axis_list := none
                 group_by := none
                 title := some (_generate_title query (rowCountChartType num_rows) x_axis y_axis) }
    else none
  else none

/-- CASE 4 of `detect_visualization`: string + two or more numeric columns.
The numeric columns are gathered over `range(1, min(num_columns,
len(first_row)))`, modelled by zipping the column and cell tails. -/
def vizCase4 (columns : List Str) (first_row : List Value) (num_rows : Nat)
    (query : Str) : Option VisualizationConfig :=
  if 3 ≤ columns.length ∧ 3 ≤ first_row.length then
    let first_val := first_row.getD 0 Value.vnone
    let numeric_columns :=
      (((columns.drop 1).zip (first_row.drop 1)).filter
        (fun p => _is_numeric_value p.2)).map (fun p => p.1)
    if isStringVal first_val ∧ 2 ≤ numeric_columns.length then
      let x_axis := columns.getD 0 []
      if _is_time_column x_axis then
        some { should_visualize := true
               chart_type := some (chars "line")
               x_axis := some x_axis
               y_axis := some (numeric_columns.getD 0 [])
               y_axis_secondary :=
                 if 2 ≤ numeric_columns.length then some (numeric_columns.getD 1 []) else none
               y_axis_list := if 2 < numeric_columns.length then some numeric_columns else none
               group_by := none
               title := some (_generate_title query (chars "line") x_axis
                 (joinSep (chars " vs ") numeric_columns)) }
      else
        some { should_visualize := true
               chart_type := some (if 10 < num_rows then chars "horizontal_grouped_bar"
                 else chars "grouped_bar")
               x_axis := some x_axis
               y_axis := some (numeric_columns.getD 0 [])
               y_axis_secondary :=
                 if numeric_columns.length = 2 then some (numeric_columns.getD 1 []) else none
               y_axis_list := if 2 < numeric_columns.length then some numeric_columns else none
               group_by := none
               title := some (chars "Comparison by " ++ x_axis) }
    else none
  else none

/-- CASE 4.5 of `detect_visualization`: string + string + number; small
distinct-count first column becomes a grouping dimension, otherwise the
row-count bucketing applies to the second/third columns.  The Python `set`
sizes become `List.dedup` lengths. -/
def vizCase45 (columns : List Str) (rows : List (List Value)) (first_row : List Value)
    (num_rows : Nat) (query : Str) : Option VisualizationConfig :=
  if 3 ≤ columns.length ∧ 3 ≤ first_row.length then
    let first_val := first_row.getD 0 Value.vnone
    let second_val := first_row.getD 1 Value.vnone
    let third_val := first_row.getD 2 Value.vnone
    if isStringVal first_val ∧ isStringVal second_val ∧ isNumberVal third_val then
      let unique_first := ((rows.map (fun r => r.getD 0 Value.vnone)).dedup).length
      let unique_second := ((rows.map (fun r => r.getD 1 Value.vnone)).dedup).length
      let x_axis := columns.getD 1 []
      let y_axis := columns.getD 2 []
      if unique_first ≤ 10 ∧ 1 < unique_first then
        some { should_visualize := true
               chart_type := some (if 10 < unique_second then chars "horizontal_grouped_bar"
                 else chars "grouped_bar")
               x_axis := some x_axis
               y_axis := some y_axis
               y_axis_secondary := none
               y_axis_list := none
               group_by := some (columns.getD 0 [])
               title := some (y_axis ++ chars " by " ++ x_axis ++ chars " grouped by " ++
                 columns.getD 0 []) }
      else
        some { should_visualize := true
               chart_type := some (rowCountChartType num_rows)
               x_axis := some x_axis
               y_axis := some y_axis
               y_axis_secondary := none
               y_axis_list := none
               group_by := none
               title := some (_generate_title query (rowCountChartType num_rows) x_axis y_axis) }
    else none
  else none

/-- CASE 5 of `detect_visualization`: a time column detected by name; the
Python truthiness check `if y_axis:` makes an empty-string y-axis fall
through. -/
def vizCase5 (columns : List Str) (query : Str) : Option VisualizationConfig :=
  let col_types := _detect_column_types columns
  if col_types.time ≠ [] then
    let x_axis := col_types.time.headD []
    let optY : Option Str :=
      if col_types.value ≠ [] then some (col_types.value.headD [])
      else if 1 < columns.length then some (columns.getD 1 []) else none
    match optY with
    | some y_axis =>
      if y_axis ≠ [] then
        some { should_visualize := true
               chart_type := some (chars "line")
               x_axis := some x_axis
               y_axis := some y_axis
               y_axis_secondary :=
                 if 1 < col_types.value.length then some (col_types.value.getD 1 []) else none
               y_axis_list := none
               group_by := none
               title := some (_generate_title query (chars "line") x_axis y_axis) }
      else none
    | none => none
  else none

/-- CASE 6 of `detect_visualization`: a category column detected by name. -/
def vizCase6 (columns : List Str) (num_rows : Nat) (query : Str) :
    Option VisualizationConfig :=
  let col_types := _detect_column_types columns
  if col_types.category ≠ [] ∧ 2 ≤ columns.length then
    let x_axis := col_types.category.headD []
    let y_axis := if col_types.value ≠ [] then col_types.value.headD [] else columns.getD 1 []
    some { should_visualize := true
           chart_type := some (rowCountChartType num_rows)
           x_axis := some x_axis
           y_axis := some y_axis
           y_axis_secondary := none
           y_axis_list := none
           group_by := none
           title := some (_generate_title query (rowCountChartType num_rows) x_axis y_axis) }
  else none

/-- Model of `detect_visualization`: guards first (empty result, raw-data
query intent, single row, single column), then the shape cases in source
order, then the column-name cases, then no visualization. -/
def detect_visualization (columns : List Str) (rows : List (List Value)) (query : Str) :
    VisualizationConfig :=
  if columns = [] ∨ rows = [] then _no_visualization
  else if _should_skip_visualization query then _no_visualization
  else if rows.length = 1 then _no_visualization
  else if columns.length = 1 then _no_visualization
  else
    let first_row := rows.headD []
    match vizCase3 columns first_row rows.length query with
    | some cfg => cfg
    | none =>
      match vizCase4 columns first_row rows.length query with
      | some cfg => cfg
      | none =>
        match vizCase45 columns rows first_row rows.length query with
        | some cfg => cfg
        | none =>
          match vizCase5 columns query with
          | some cfg => cfg
          | none =>
            match vizCase6 columns rows.length query with
            | some cfg => cfg
            | none => _no_visualization

/-!
## agents/sql_agent.py and agents/csv_agent_wrapper.py — result-context
extractors
-/

/-- KEY_COLUMNS from agents/sql_agent.py. -/
def KEY_COLUMNS : List Str :=
  [ chars "Vendor Name", chars "Power Plant", chars "Power Plant Desc", chars "Plant Desc"
  , chars "Route Code", chars "Route Desc", chars "Waybill Status Desc"
  , chars "Contractor Name" ]

/-- CSV_KEY_COLUMNS from agents/csv_agent_wrapper.py. -/
def CSV_KEY_COLUMNS : List Str :=
  [chars "zone_name", chars "driver_id", chars "vehicle_name", chars "month"]

/-- The collection loop of `_extract_result_context` for one key column:
walk the values in order, keep truthy values not seen before, stop once five
are collected (the source checks the cap after each append). -/
def collectUniqueValues : List Value → List Value → List Value
  | [], acc => acc
  | v :: rest, acc =>
    let nextAcc := if pyTruthy v ∧ ¬ v ∈ acc then acc ++ [v] else acc
    if 5 ≤ nextAcc.length then nextAcc else collectUniqueValues rest nextAcc

/-- Key-value assembly of the SQL extractor over `enumerate(columns)`,
written as an index-carrying recursion. -/
def sqlKeyValuesFrom (rows : List (List Value)) : Nat → List Str → List (Str × CtxVal)
  | _, [] => []
  | i, col :: cs =>
    let rest := sqlKeyValuesFrom rows (i + 1) cs
    if col ∈ KEY_COLUMNS then
      let uv := collectUniqueValues ((rows.take 10).map (fun r => r.getD i Value.vnone)) []
      if uv = [] then rest
      else
        (col, if 1 < uv.length then CtxVal.many uv else CtxVal.one (uv.headD Value.vnone)) :: rest
    else rest

/-- Key values of a multi-row SQL result. -/
def sqlKeyValues (columns : List Str) (rows : List (List Value)) : List (Str × CtxVal) :=
  sqlKeyValuesFrom rows 0 columns

/-- The single-row value dict `{col: rows[0][i] for i, col in enumerate(columns)}`. -/
def singleRowValues (columns : List Str) (row : List Value) : List (Str × Value) :=
  columns.enum.map (fun p => (p.2, row.getD p.1 Value.vnone))

/-- The result dict handed to `_extract_result_context`: an optional error, the
column names, and the rows when the `"rows"` key is present. -/
structure SqlResult where
  hasError : Bool
  columns : List Str
  rows : Option (List (List Value))
deriving DecidableEq, Repr

/-- Model of `_extract_result_context` from agents/sql_agent.py. -/
def _extract_result_context (result : SqlResult) : Option ResultContext :=
  if result.hasError then none
  else
    match result.rows with
    | none => none
    | some rows =>
      if rows = [] then none
      else if rows.length = 1 then
        some (ResultContext.single (singleRowValues result.columns (rows.headD [])))
      else
        let kv := sqlKeyValues result.columns rows
        if kv = [] then none else some (ResultContext.multi rows.length kv)

/-- The per-column collection of the CSV extractor:
`list(set(str(r[i]) for r in rows[:10] if r[i] is not None))[:5]`.
Python does not specify the iteration order of a `set`; the model fixes the
first-occurrence order, which has the same members, the same cap, and is
exact whenever at most one distinct value is collected. -/
def csvUniqueValues (vals : List Value) : List Str :=
  (((vals.filter (fun v => v ≠ Value.vnone)).map pyStr).dedup).take 5

/-- Key-value assembly of the CSV extractor over `enumerate(cols)`. -/
def csvKeyValuesFrom (rows : List (List Value)) : Nat → List Str → List (Str × CtxVal)
  | _, [] => []
  | i, col :: cs =>
    let rest := csvKeyValuesFrom rows (i + 1) cs
    if col ∈ CSV_KEY_COLUMNS then
      let uv := csvUniqueValues ((rows.take 10).map (fun r => r.getD i Value.vnone))
      if uv = [] then rest
      else
        (col, if 1 < uv.length then CtxVal.many (uv.map Value.vstr)
          else CtxVal.one (Value.vstr (uv.headD []))) :: rest
    else rest

/-- Key values of a multi-row CSV result. -/
def csvKeyValues (columns : List Str) (rows : List (List Value)) : List (Str × CtxVal) :=
  csvKeyValuesFrom rows 0 columns

/-- Model of the DataFrame branch of `_extract_csv_result_context` from
agents/csv_agent_wrapper.py (`columns`/`rows` are `list(result.columns)` and
`result.values.tolist()`); the Series and scalar branches handle non-tabular
results and are outside every claim. -/
def _extract_csv_result_context (columns : List Str) (rows : List (List Value)) :
    Option ResultContext :=
  if rows = [] then none
  else if rows.length = 1 then
    some (ResultContext.single (singleRowValues columns (rows.headD [])))
  else
    let kv := csvKeyValues columns rows
    if kv = [] then none else some (ResultContext.multi rows.length kv)

/-!
## Claim C1 — history trim and truncation invariant
-/

/-- An append call against a session: `add_user(text)` or `add_ai(text)`,
with the clock value at the call. -/
inductive HistOp where
  | user (text : Str) (now : Nat)
  | ai (text : Str) (now : Nat)

/-- Apply one append call. -/
def applyHistOp (s : SessionMemory) : HistOp → SessionMemory
  | .user t now => s.add_user t now
  | .ai t now => s.add_ai t now

/-- Apply a sequence of append calls. -/
def runHistOps (s : SessionMemory) (ops : List HistOp) : SessionMemory :=
  ops.foldl applyHistOp s

/-- The message an append call stores (truncated before storage). -/
def histOpMsg : HistOp → Msg
  | .user t _ => ⟨Role.user, t.take 10000⟩
  | .ai t _ => ⟨Role.ai, t.take 50000⟩

theorem trim_history_suffix (h : List Msg) : _trim_history h <:+ h := by
  unfold _trim_history
  split
  · exact List.drop_suffix _ _
  · exact List.suffix_refl _

theorem trim_history_length (h : List Msg) :
    (_trim_history h).length = min h.length MAX_MESSAGES_PER_SESSION := by
  unfold _trim_history
  split
  · rw [List.length_drop]
    omega
  · omega

theorem suffix_append_same {α : Type} {a b : List α} (c : List α) (h : a <:+ b) :
    a ++ c <:+ b ++ c := by
  obtain ⟨p, hp⟩ := h
  exact ⟨p, by rw [← hp, List.append_assoc]⟩

theorem applyHistOp_history (s : SessionMemory) (op : HistOp) :
    (applyHistOp s op).history = _trim_history (s.history ++ [histOpMsg op]) := by
  cases op <;> rfl

theorem runHistOps_suffix (ops : List HistOp) :
    ∀ s : SessionMemory, (runHistOps s ops).history <:+ s.history ++ ops.map histOpMsg := by
  induction ops with
  | nil => intro s; simp [runHistOps]
  | cons op ops ih =>
    intro s
    have h1 : (runHistOps s (op :: ops)).history <:+
        (applyHistOp s op).history ++ ops.map histOpMsg := ih (applyHistOp s op)
    have h2 : (applyHistOp s op).history ++ ops.map histOpMsg <:+
        (s.history ++ [histOpMsg op]) ++ ops.map histOpMsg := by
      apply suffix_append_same
      rw [applyHistOp_history]
      exact trim_history_suffix _
    refine List.IsSuffix.trans h1 (by simpa using h2)

theorem runHistOps_length (ops : List HistOp) :
    ∀ s : SessionMemory, s.history.length ≤ 50 → (runHistOps s ops).history.length ≤ 50 := by
  induction ops with
  | nil => intro s hs; simpa [runHistOps] using hs
  | cons op ops ih =>
    intro s hs
    apply ih
    rw [applyHistOp_history, trim_history_length]
    have : MAX_MESSAGES_PER_SESSION = 50 := rfl
    omega

/-- C1: starting from a fresh session, after any sequence of
`add_user`/`add_ai` calls the history holds at most 50 turns, it is a suffix
of the full truncated-message sequence (so the oldest turns are the ones
evicted), and every stored text was truncated before storage to 10000
characters for user turns and 50000 characters for agent turns. -/
theorem C1_history_trim_and_truncation (now0 : Nat) (ops : List HistOp) :
    (runHistOps (SessionMemory.init now0) ops).history.length ≤ 50 ∧
    (runHistOps (SessionMemory.init now0) ops).history <:+ ops.map histOpMsg ∧
    ∀ m ∈ (runHistOps (SessionMemory.init now0) ops).history,
      (m.role = Role.user → m.content.length ≤ 10000) ∧
      (m.role = Role.ai → m.content.length ≤ 50000) := by
  have hsuf : (runHistOps (SessionMemory.init now0) ops).history <:+ ops.map histOpMsg := by
    simpa [SessionMemory.init] using runHistOps_suffix ops (SessionMemory.init now0)
  refine ⟨runHistOps_length ops _ (by simp [SessionMemory.init]), hsuf, ?_⟩
  intro m hm
  have hmem : m ∈ ops.map histOpMsg := hsuf.subset hm
  rw [List.mem_map] at hmem
  obtain ⟨op, _, hop⟩ := hmem
  cases op with
  | user t now =>
    subst hop
    exact ⟨fun _ => by simpa [histOpMsg] using List.length_take_le 10000 t,
           fun h => by simp [histOpMsg] at h⟩
  | ai t now =>
    subst hop
    exact ⟨fun h => by simp [histOpMsg] at h,
           fun _ => by simpa [histOpMsg] using List.length_take_le 50000 t⟩

/-- Witness for C1 at a concrete call sequence. -/
theorem C1_history_trim_and_truncation_witness :
    (runHistOps (SessionMemory.init 0)
      [HistOp.user (chars "hi") 1, HistOp.ai (chars "hello") 2]).history.length ≤ 50 :=
  (C1_history_trim_and_truncation 0
    [HistOp.user (chars "hi") 1, HistOp.ai (chars "hello") 2]).1

/-!
## Claims C2, C3, C4 — classify_query
-/

/-- C2: a query containing an unambiguous math keyword (and in particular one
also containing an ambiguous SQL term) fast-routes to math with high
confidence, for every possible model response (so without consulting the
model); moreover the unambiguous keyword tables are scanned before the
ambiguous-term tables: any math keyword forces math, and a CSV keyword forces
csv whenever no math keyword is present. -/
theorem C2_fast_path_precedence (query : Str) (resp : Option ModelResp)
    (s : SessionMemory) (now : Nat)
    (hmath : anyKeywordIn MATH_ROUTE_KEYWORDS (lower query) = true)
    (hsql : anyKeywordIn (SQL_AMBIGUOUS_TERMS.map (fun p => p.1)) (lower query) = true) :
    detect_route_from_column_terms query = some (chars "math") ∧
    (classify_query resp query s now).1 =
      { route := chars "math"
        confidence := chars "high"
        reason := chars "Query contains column term that maps to math data source" } ∧
    (∀ q2 : Str, anyKeywordIn MATH_ROUTE_KEYWORDS (lower q2) = true →
      detect_route_from_column_terms q2 = some (chars "math")) ∧
    (∀ q2 : Str, anyKeywordIn MATH_ROUTE_KEYWORDS (lower q2) = false →
      anyKeywordIn CSV_ROUTE_KEYWORDS (lower q2) = true →
      detect_route_from_column_terms q2 = some (chars "csv")) := by
  have hd : ∀ q2 : Str, anyKeywordIn MATH_ROUTE_KEYWORDS (lower q2) = true →
      detect_route_from_column_terms q2 = some (chars "math") := by
    intro q2 h2
    unfold detect_route_from_column_terms
    simp [h2]
  refine ⟨hd query hmath, ?_, hd, ?_⟩
  · unfold classify_query
    rw [hd query hmath]
    rfl
  · intro q2 h2m h2c
    unfold detect_route_from_column_terms
    simp [h2m, h2c]

/-- Witness for C2: a query with both a math keyword and an ambiguous SQL
term routes to math. -/
theorem C2_fast_path_precedence_witness :
    (classify_query none (chars "sqrt of quantity") (SessionMemory.init 0) 0).1 =
      { route := chars "math"
        confidence := chars "high"
        reason := chars "Query contains column term that maps to math data source" } :=
  (C2_fast_path_precedence (chars "sqrt of quantity") none (SessionMemory.init 0) 0
    (by decide) (by decide)).2.1

/-- C3: when the fast path finds nothing, the session has a last route, and
the model classifies as out_of_scope with a reason containing a follow-up
indicator word, `classify_query` overrides to the last route at medium
confidence. -/
theorem C3_followup_rescue (query reasonTxt conf lr : Str) (s : SessionMemory) (now : Nat)
    (hfast : detect_route_from_column_terms query = none)
    (hlr : s.last_route = some lr)
    (hne : lr ≠ [])
    (hind : anyKeywordIn followupIndicatorWords (lower reasonTxt) = true) :
    (classify_query (some ⟨chars "out_of_scope", conf, reasonTxt⟩) query s now).1 =
      { route := lr
        confidence := chars "medium"
        reason := chars "Detected as follow-up to previous " ++ lr ++ chars " query" } := by
  unfold classify_query
  rw [hfast]
  simp only [SessionMemory.get_route, SessionMemory.get_messages, hlr]
  have hc : (chars "out_of_scope" = chars "clarify") = False := eq_false (by decide)
  have hv : ((chars "out_of_scope") ∈ validRoutes) = True := eq_true (by decide)
  simp only [hc, hv, if_false, if_true]
  rw [if_pos ⟨trivial, hne, hind⟩]

/-- Witness for C3 at a concrete session and model response. -/
theorem C3_followup_rescue_witness :
    (classify_query (some ⟨chars "out_of_scope", chars "low", chars "uses a pronoun"⟩)
      (chars "hello") { SessionMemory.init 0 with last_route := some (chars "sql") } 5).1 =
      { route := chars "sql"
        confidence := chars "medium"
        reason := chars "Detected as follow-up to previous sql query" } := by
  rw [C3_followup_rescue (chars "hello") (chars "uses a pronoun") (chars "low") (chars "sql")
    { SessionMemory.init 0 with last_route := some (chars "sql") } 5
    (by decide) rfl (by decide) (by decide)]
  rfl

/-- C4 counterexample: on the model path `classify_query` returns a
non-out_of_scope route while leaving the session's `last_route` unset — the
route is not persisted before returning (the caller persists it afterwards). -/
theorem C4_counterexample :
    (classify_query (some ⟨chars "sql", chars "high", chars "db question"⟩)
        (chars "hello") (SessionMemory.init 0) 5).1.route = chars "sql" ∧
    chars "sql" ≠ chars "out_of_scope" ∧
    (classify_query (some ⟨chars "sql", chars "high", chars "db question"⟩)
        (chars "hello") (SessionMemory.init 0) 5).2.last_route = none := by
  exact ⟨by decide, by decide, by decide⟩

/-- C4 amended: `classify_query` persists the returned route as `last_route`
only on the fast path; on the model path (including the follow-up rescue) it
returns with the session's `last_route` unchanged. -/
theorem C4_route_persistence_amended (query : Str) (resp : Option ModelResp)
    (s : SessionMemory) (now : Nat) :
    (∀ r : Str, detect_route_from_column_terms query = some r →
      (classify_query resp query s now).2.last_route = some r ∧
      (classify_query resp query s now).1.route = r) ∧
    (detect_route_from_column_terms query = none →
      (classify_query resp query s now).2.last_route = s.last_route) := by
  constructor
  · intro r h
    unfold classify_query
    rw [h]
    exact ⟨rfl, rfl⟩
  · intro h
    have hs : (classify_query resp query s now).2 = { s with last_accessed := now } := by
      unfold classify_query
      rw [h]
      rfl
    rw [hs]

/-- Witness for C4 amended: the fast path does persist its route. -/
theorem C4_route_persistence_amended_witness :
    (classify_query none (chars "sqrt") (SessionMemory.init 0) 3).2.last_route =
      some (chars "math") :=
  ((C4_route_persistence_amended (chars "sqrt") none (SessionMemory.init 0) 3).1
    (chars "math") (by decide)).1

/-!
## Claim C5 — combine_query_with_disambiguation (resolve)
-/

/-- C5 counterexample: with an empty selected value and a query equal to the
ambiguous term, the replacement yields the empty string — so resolve does not
always return a non-empty string. -/
theorem C5_counterexample :
    combine_query_with_disambiguation (chars "quantity") (chars "quantity") [] = [] := by
  decide

/-- C5 amended: the result always contains the choice; when the term occurs
case-insensitively in the query its first occurrence is replaced, with
`len(result) = len(q) - len(term) + len(choice)`; otherwise the
`" (using {choice})"` suffix is appended; and the result is non-empty whenever
the selected choice is non-empty. -/
theorem C5_resolve_properties (q term choice : Str) :
    isSubstring choice (combine_query_with_disambiguation q term choice) = true ∧
    (∀ p : Nat, pyFind (lower term) (lower q) = some p →
      combine_query_with_disambiguation q term choice =
        q.take p ++ choice ++ q.drop (p + term.length) ∧
      (combine_query_with_disambiguation q term choice).length + term.length =
        q.length + choice.length) ∧
    (pyFind (lower term) (lower q) = none →
      combine_query_with_disambiguation q term choice =
        q ++ chars " (using " ++ choice ++ chars ")") ∧
    (choice ≠ [] → combine_query_with_disambiguation q term choice ≠ []) := by
  have hmain : ∃ pre post : Str,
      combine_query_with_disambiguation q term choice = pre ++ choice ++ post := by
    unfold combine_query_with_disambiguation
    cases hf : pyFind (lower term) (lower q) with
    | some p => exact ⟨q.take p, q.drop (p + term.length), rfl⟩
    | none =>
      refine ⟨q ++ chars " (using ", chars ")", ?_⟩
      simp [List.append_assoc]
  obtain ⟨pre, post, hdecomp⟩ := hmain
  have hsub : isSubstring choice (combine_query_with_disambiguation q term choice) = true := by
    rw [hdecomp]
    exact pyFind_isSome_of_decomp choice pre post
  refine ⟨hsub, ?_, ?_, ?_⟩
  · intro p hf
    have heq : combine_query_with_disambiguation q term choice =
        q.take p ++ choice ++ q.drop (p + term.length) := by
      unfold combine_query_with_disambiguation
      rw [hf]
    refine ⟨heq, ?_⟩
    have hb := (pyFind_some _ _ _ hf).2
    rw [lower_length, lower_length] at hb
    rw [heq]
    simp only [List.length_append, List.length_take, List.length_drop]
    omega
  · intro hf
    unfold combine_query_with_disambiguation
    rw [hf]
  · intro hch
    rw [hdecomp]
    intro habs
    have hl := congrArg List.length habs
    simp only [List.length_append, List.length_nil] at hl
    exact hch (List.length_eq_zero.mp (by omega))

/-- Witness for C5 amended, replacement branch at a concrete input. -/
theorem C5_resolve_properties_witness :
    combine_query_with_disambiguation (chars "total Quantity now") (chars "quantity")
      (chars "Requested Quantity") = chars "total Requested Quantity now" := by
  have h := ((C5_resolve_properties (chars "total Quantity now") (chars "quantity")
    (chars "Requested Quantity")).2.1 6 (by decide)).1
  rw [h]
  decide

/-!
## Claim C6 — detect suppression when the query is already specific
-/

theorem detectFromTable_term_mem (query : Str) :
    ∀ (table : List (Str × TermEntry)) (offer : DisambigOffer),
      detectFromTable table query = some offer →
      offer.ambiguous_term ∈ table.map (fun p => p.1) := by
  intro table
  induction table with
  | nil =>
    intro offer h
    simp [detectFromTable] at h
  | cons hd tl ih =>
    intro offer h
    unfold detectFromTable at h
    by_cases hc : isSubstring hd.1 (lower query) = true ∧
        ¬ is_already_specific (lower query) hd.1 hd.2.columns = true
    · rw [if_pos hc] at h
      cases h
      exact List.mem_map_of_mem (fun p => p.1) (List.mem_cons_self hd tl)
    · rw [if_neg hc] at h
      simp only [List.map_cons, List.mem_cons]
      right
      exact ih offer h

theorem detectFromTable_not_specific (query term : Str) (entry : TermEntry) :
    ∀ table : List (Str × TermEntry),
      (table.map (fun p => p.1)).Nodup →
      (term, entry) ∈ table →
      is_already_specific (lower query) term entry.columns = true →
      ∀ offer : DisambigOffer, detectFromTable table query = some offer →
        offer.ambiguous_term ≠ term := by
  intro table
  induction table with
  | nil =>
    intro _ hmem
    exact absurd hmem (List.not_mem_nil _)
  | cons hd tl ih =>
    intro hnodup hmem hspec offer h
    have hnd1 : hd.1 ∉ tl.map (fun p => p.1) := by
      simp only [List.map_cons, List.nodup_cons] at hnodup
      exact hnodup.1
    have hnd2 : (tl.map (fun p => p.1)).Nodup := by
      simp only [List.map_cons, List.nodup_cons] at hnodup
      exact hnodup.2
    unfold detectFromTable at h
    by_cases hc : isSubstring hd.1 (lower query) = true ∧
        ¬ is_already_specific (lower query) hd.1 hd.2.columns = true
    · rw [if_pos hc] at h
      cases h
      show hd.1 ≠ term
      intro hterm
      have hentry : hd.2 = entry := by
        rcases List.mem_cons.mp hmem with he | he
        · rw [← he]
        · exact absurd (by rw [hterm]; exact List.mem_map_of_mem (fun p => p.1) he) hnd1
      apply hc.2
      rw [hterm, hentry]
      exact hspec
    · rw [if_neg hc] at h
      rcases List.mem_cons.mp hmem with he | he
      · intro habs
        apply hnd1
        have hm := detectFromTable_term_mem query tl offer h
        rw [← he]
        exact habs ▸ hm
      · exact ih hnd2 he hspec offer h

/-- C6: if the lower-cased query contains an ambiguous term and also contains
(verbatim or with underscores replaced by spaces) the full lower-cased name of
one of that term's candidate columns, then neither SQL nor CSV detection
returns a disambiguation offer for that term. -/
theorem C6_detect_idempotent_suppression (query term : Str) (entry : TermEntry)
    (hterm : isSubstring term (lower query) = true)
    (hcol : ∃ col ∈ entry.columns,
      isSubstring (lower col) (lower query) = true ∨
      isSubstring (underscoresToSpaces (lower col)) (lower query) = true) :
    ((term, entry) ∈ SQL_AMBIGUOUS_TERMS →
      ¬ ∃ offer : DisambigOffer, detect_sql_disambiguation query = some offer ∧
        offer.ambiguous_term = term) ∧
    ((term, entry) ∈ CSV_AMBIGUOUS_TERMS →
      ¬ ∃ offer : DisambigOffer, detect_csv_disambiguation query = some offer ∧
        offer.ambiguous_term = term) := by
  have hspec : is_already_specific (lower query) term entry.columns = true := by
    obtain ⟨col, hcmem, hc⟩ := hcol
    unfold is_already_specific
    rw [List.any_eq_true]
    refine ⟨col, hcmem, ?_⟩
    rw [lower_lower]
    rcases hc with h | h
    · simp [h]
    · simp [h]
  constructor
  · intro hmem ⟨offer, hoffer, habs⟩
    exact detectFromTable_not_specific query term entry SQL_AMBIGUOUS_TERMS
      (by decide) hmem hspec offer hoffer habs
  · intro hmem ⟨offer, hoffer, habs⟩
    exact detectFromTable_not_specific query term entry CSV_AMBIGUOUS_TERMS
      (by decide) hmem hspec offer hoffer habs

/-- Witness for C6: "total requested quantity" contains both the bare term
and a full candidate column name, so no offer is made for "quantity". -/
theorem C6_detect_idempotent_suppression_witness :
    ¬ ∃ offer : DisambigOffer,
      detect_sql_disambiguation (chars "total requested quantity") = some offer ∧
      offer.ambiguous_term = chars "quantity" :=
  (C6_detect_idempotent_suppression (chars "total requested quantity") (chars "quantity")
    { columns := [chars "Requested Quantity", chars "Actual Quantity"]
      question := chars "Which quantity do you mean?"
      descriptions :=
        [ (chars "Requested Quantity", chars "The quantity requested for delivery")
        , (chars "Actual Quantity", chars "The actual delivered quantity") ] }
    (by decide)
    ⟨chars "Requested Quantity", by decide, Or.inl (by decide)⟩).1 (by decide)

/-!
## Claim C7 — two-column row-count chart selection
-/

/-- C7 counterexample: a two-column string+number result with a single row
(1 ≤ 6) yields no visualization at all, not a pie chart — the single-row guard
precedes the row-count bucketing. -/
theorem C7_counterexample :
    (detect_visualization [chars "zone_name", chars "avg_hrs"]
      [[Value.vstr (chars "a"), Value.vnum 5]] (chars "average")).should_visualize = false ∧
    (detect_visualization [chars "zone_name", chars "avg_hrs"]
      [[Value.vstr (chars "a"), Value.vnum 5]] (chars "average")).chart_type = none ∧
    (1 : Nat) ≤ 6 := by
  exact ⟨by decide, by decide, by decide⟩

/-- C7 amended: for a two-column result whose first row is a string plus a
number, a non-time-like first column and a query that does not trigger the
raw-data guard, results with at least two rows chart purely by row count
(pie for 2–6 rows, bar for 7–10, horizontal bar above 10), while results with
zero rows or exactly one row yield no visualization. -/
theorem C7_row_count_chart_amended (c1 c2 s0 : Str) (x : Int)
    (rest : List (List Value)) (q : Str)
    (hskip : _should_skip_visualization q = false)
    (htime : _is_time_column c1 = false)
    (hrest : rest ≠ []) :
    (detect_visualization [c1, c2] ([Value.vstr s0, Value.vnum x] :: rest) q).should_visualize
        = true ∧
    (detect_visualization [c1, c2] ([Value.vstr s0, Value.vnum x] :: rest) q).chart_type =
      some (rowCountChartType (rest.length + 1)) ∧
    (detect_visualization [c1, c2] ([Value.vstr s0, Value.vnum x] :: rest) q).x_axis = some c1 ∧
    (detect_visualization [c1, c2] ([Value.vstr s0, Value.vnum x] :: rest) q).y_axis = some c2 ∧
    (detect_visualization [c1, c2] [[Value.vstr s0, Value.vnum x]] q).should_visualize = false ∧
    (detect_visualization [c1, c2] ([] : List (List Value)) q).should_visualize = false := by
  have hrl : rest.length ≠ 0 := fun h0 => hrest (List.length_eq_zero.mp h0)
  have hc3 : vizCase3 [c1, c2] [Value.vstr s0, Value.vnum x]
      (([Value.vstr s0, Value.vnum x] :: rest).length) q =
      some { should_visualize := true
             chart_type := some (rowCountChartType (rest.length + 1))
             x_axis := some c1
             y_axis := some c2
             y_axis_secondary := none
             y_axis_list := none
             group_by := none
             title := some (_generate_title q (rowCountChartType (rest.length + 1)) c1 c2) } := by
    unfold vizCase3
    rw [if_pos (by simp)]
    rw [if_pos (⟨rfl, rfl⟩ : isStringVal (([Value.vstr s0, Value.vnum x] : List Value).getD 0
      Value.vnone) = true ∧ _is_numeric_value (([Value.vstr s0, Value.vnum x] :
      List Value).getD 1 Value.vnone) = true)]
    rw [if_neg (by simp [_is_numeric_value] : ¬ 2 ≤ ((([Value.vstr s0, Value.vnum x] :
      List Value).drop 1).filter (fun v => _is_numeric_value v)).length)]
    rw [if_neg (by simp [htime] : ¬ _is_time_column (([c1, c2] : List Str).getD 0 []) = true)]
    rfl
  have hmain : detect_visualization [c1, c2] ([Value.vstr s0, Value.vnum x] :: rest) q =
      { should_visualize := true
        chart_type := some (rowCountChartType (rest.length + 1))
        x_axis := some c1
        y_axis := some c2
        y_axis_secondary := none
        y_axis_list := none
        group_by := none
        title := some (_generate_title q (rowCountChartType (rest.length + 1)) c1 c2) } := by
    unfold detect_visualization
    rw [if_neg (by simp : ¬ (([c1, c2] : List Str) = [] ∨
      ([Value.vstr s0, Value.vnum x] :: rest) = []))]
    rw [if_neg (by simp [hskip] : ¬ _should_skip_visualization q = true)]
    rw [if_neg (by simp [hrl] : ¬ ([Value.vstr s0, Value.vnum x] :: rest).length = 1)]
    rw [if_neg (by simp : ¬ ([c1, c2] : List Str).length = 1)]
    simp only [List.headD_cons]
    rw [hc3]
  have h1 : detect_visualization [c1, c2] [[Value.vstr s0, Value.vnum x]] q =
      _no_visualization := by
    unfold detect_visualization
    rw [if_neg (by simp : ¬ (([c1, c2] : List Str) = [] ∨
      ([[Value.vstr s0, Value.vnum x]] : List (List Value)) = []))]
    rw [if_neg (by simp [hskip] : ¬ _should_skip_visualization q = true)]
    rw [if_pos (by simp : ([[Value.vstr s0, Value.vnum x]] : List (List Value)).length = 1)]
  have h0 : detect_visualization [c1, c2] ([] : List (List Value)) q = _no_visualization := by
    unfold detect_visualization
    rw [if_pos (by simp : ([c1, c2] : List Str) = [] ∨ ([] : List (List Value)) = [])]
  exact ⟨by rw [hmain], by rw [hmain], by rw [hmain], by rw [hmain],
    by rw [h1]; rfl, by rw [h0]; rfl⟩

/-- Witness for C7 amended: ten rows of string+number give a bar chart. -/
theorem C7_row_count_chart_amended_witness :
    (detect_visualization [chars "zone_name", chars "avg_hrs"]
      ([Value.vstr (chars "z"), Value.vnum 1] ::
        List.replicate 9 [Value.vstr (chars "z"), Value.vnum 1])
      (chars "average")).chart_type = some (chars "bar") := by
  have h := (C7_row_count_chart_amended (chars "zone_name") (chars "avg_hrs") (chars "z") 1
    (List.replicate 9 [Value.vstr (chars "z"), Value.vnum 1]) (chars "average")
    (by decide) (by decide) (by decide)).2.1
  rw [h]
  decide

/-!
## Claim C8 — raw-data guard and its overrides
-/

/-- C8 counterexample: "count records" matches a raw-data keyword
("records") and no explicit chart keyword, yet visualization is not
suppressed — the aggregation keyword "count" also overrides the raw-data
guard, which the claim does not allow for. -/
theorem C8_counterexample :
    anyKeywordIn NO_VISUALIZATION_KEYWORDS (lower (chars "count records")) = true ∧
    anyKeywordIn EXPLICIT_CHART_KEYWORDS (lower (chars "count records")) = false ∧
    (detect_visualization [chars "status", chars "cnt"]
      [[Value.vstr (chars "a"), Value.vnum 1], [Value.vstr (chars "b"), Value.vnum 2]]
      (chars "count records")).should_visualize = true := by
  exact ⟨by decide, by decide, by decide⟩

/-- C8 amended: a query matching a raw-data keyword suppresses visualization
for every result shape provided it matches neither an explicit chart-request
keyword nor an aggregation keyword; an explicit chart-request keyword always
defeats the raw-data guard. -/
theorem C8_raw_data_guard_amended (q : Str) (columns : List Str) (rows : List (List Value))
    (hraw : anyKeywordIn NO_VISUALIZATION_KEYWORDS (lower q) = true)
    (hchart : anyKeywordIn EXPLICIT_CHART_KEYWORDS (lower q) = false)
    (hviz : anyKeywordIn VISUALIZATION_KEYWORDS (lower q) = false) :
    (detect_visualization columns rows q).should_visualize = false ∧
    (∀ q2 : Str, anyKeywordIn EXPLICIT_CHART_KEYWORDS (lower q2) = true →
      _should_skip_visualization q2 = false) := by
  have hskip : _should_skip_visualization q = true := by
    unfold _should_skip_visualization
    simp [hchart, hviz, hraw]
  constructor
  · unfold detect_visualization
    by_cases hempty : columns = [] ∨ rows = []
    · rw [if_pos hempty]
      rfl
    · rw [if_neg hempty, if_pos hskip]
      rfl
  · intro q2 h2
    unfold _should_skip_visualization
    simp [h2]

/-- Witness for C8 amended at the spec's example query. -/
theorem C8_raw_data_guard_amended_witness :
    (detect_visualization [chars "status", chars "cnt"] [[Value.vnum 1], [Value.vnum 2]]
      (chars "list all waybills for vendor x")).should_visualize = false :=
  (C8_raw_data_guard_amended (chars "list all waybills for vendor x")
    [chars "status", chars "cnt"] [[Value.vnum 1], [Value.vnum 2]]
    (by decide) (by decide) (by decide)).1

/-!
## Claim C9 — which accessors refresh last_accessed
-/

/-- C9 counterexample: the read accessor `get_route` returns the session
completely unchanged — its `last_accessed` stays at 0 no matter when it is
called — whereas the write accessor `set_route` called at time 7 refreshes it
to 7.  The same holds for the other plain reads. -/
theorem C9_counterexample :
    ((SessionMemory.init 0).get_route).2.last_accessed = 0 ∧
    ((SessionMemory.init 0).get_route).2 = SessionMemory.init 0 ∧
    ((SessionMemory.init 0).get_pending_disambiguation).2 = SessionMemory.init 0 ∧
    ((SessionMemory.init 0).has_pending_disambiguation).2 = SessionMemory.init 0 ∧
    ((SessionMemory.init 0).get_last_result_context).2 = SessionMemory.init 0 ∧
    ((SessionMemory.init 0).get_context_summary).2 = SessionMemory.init 0 ∧
    ((SessionMemory.init 0).clear_pending_disambiguation).last_accessed = 0 ∧
    ((SessionMemory.init 0).set_route (chars "sql") 7).last_accessed = 7 := by
  exact ⟨rfl, rfl, rfl, rfl, rfl, rfl, rfl, rfl⟩

/-- C9 amended: the history accessors (`add_user`, `add_ai`, `get`,
`get_messages`, `clear`) and the setters (`set_route`,
`set_pending_disambiguation`, `set_last_result_context`) refresh
`last_accessed` to the call time; the plain reads (`get_route`,
`get_pending_disambiguation`, `has_pending_disambiguation`,
`get_last_result_context`, `get_context_summary`) and
`clear_pending_disambiguation` leave the session's `last_accessed`
unchanged. -/
theorem C9_access_time_amended (s : SessionMemory) (now : Nat) (t : Str)
    (d : PendingDisambiguation) (c : ResultContext) (r : Str) :
    (s.add_user t now).last_accessed = now ∧
    (s.add_ai t now).last_accessed = now ∧
    ((s.get now).2).last_accessed = now ∧
    ((s.get_messages now).2).last_accessed = now ∧
    (s.clear now).last_accessed = now ∧
    (s.set_pending_disambiguation d now).last_accessed = now ∧
    (s.set_last_result_context c now).last_accessed = now ∧
    (s.set_route r now).last_accessed = now ∧
    (s.get_route).2 = s ∧
    (s.get_pending_disambiguation).2 = s ∧
    (s.has_pending_disambiguation).2 = s ∧
    (s.get_last_result_context).2 = s ∧
    (s.get_context_summary).2 = s ∧
    (s.clear_pending_disambiguation).last_accessed = s.last_accessed :=
  ⟨rfl, rfl, rfl, rfl, rfl, rfl, rfl, rfl, rfl, rfl, rfl, rfl, rfl, rfl⟩

/-!
## Claim C10 — result-context extraction for multi-row results
-/

/-- C10 counterexample: the CSV extractor keeps a falsy cell value — two rows
whose key-column cells are the number 0 produce a context with the stringified
value "0", where the claim requires falsy cells (None, 0, empty string) to be
skipped, which would leave no context at all. -/
theorem C10_counterexample :
    _extract_csv_result_context [chars "zone_name"] [[Value.vnum 0], [Value.vnum 0]] =
      some (ResultContext.multi 2 [(chars "zone_name", CtxVal.one (Value.vstr (chars "0")))]) ∧
    pyTruthy (Value.vnum 0) = false := by
  exact ⟨by decide, by decide⟩

theorem collectUniqueValues_length (vals : List Value) :
    ∀ acc : List Value, acc.length < 5 → (collectUniqueValues vals acc).length ≤ 5 := by
  induction vals with
  | nil => intro acc hacc; unfold collectUniqueValues; omega
  | cons v rest ih =>
    intro acc hacc
    unfold collectUniqueValues
    by_cases hv : pyTruthy v = true ∧ ¬ v ∈ acc
    · rw [if_pos hv]
      by_cases hl : 5 ≤ (acc ++ [v]).length
      · rw [if_pos hl]
        simp only [List.length_append, List.length_cons, List.length_nil] at hl ⊢
        omega
      · rw [if_neg hl]
        apply ih
        simp only [List.length_append, List.length_cons, List.length_nil] at hl ⊢
        omega
    · rw [if_neg hv]
      by_cases hl : 5 ≤ acc.length
      · rw [if_pos hl]
        omega
      · rw [if_neg hl]
        exact ih acc (by omega)

theorem collectUniqueValues_nodup (vals : List Value) :
    ∀ acc : List Value, acc.Nodup → (collectUniqueValues vals acc).Nodup := by
  induction vals with
  | nil => intro acc hacc; exact hacc
  | cons v rest ih =>
    intro acc hacc
    unfold collectUniqueValues
    by_cases hv : pyTruthy v = true ∧ ¬ v ∈ acc
    · have hnd : (acc ++ [v]).Nodup := by
        rw [List.nodup_append]
        exact ⟨hacc, List.nodup_singleton v, by
          intro a ha hb
          rw [List.mem_singleton] at hb
          exact hv.2 (hb ▸ ha)⟩
      rw [if_pos hv]
      by_cases hl : 5 ≤ (acc ++ [v]).length
      · rw [if_pos hl]; exact hnd
      · rw [if_neg hl]; exact ih _ hnd
    · rw [if_neg hv]
      by_cases hl : 5 ≤ acc.length
      · rw [if_pos hl]; exact hacc
      · rw [if_neg hl]; exact ih acc hacc

theorem collectUniqueValues_mem_spec (vals : List Value) :
    ∀ (acc : List Value) (v : Value), v ∈ collectUniqueValues vals acc →
      v ∈ acc ∨ (v ∈ vals ∧ pyTruthy v = true) := by
  induction vals with
  | nil => intro acc v hv; exact Or.inl hv
  | cons w rest ih =>
    intro acc v hv
    unfold collectUniqueValues at hv
    by_cases hw : pyTruthy w = true ∧ ¬ w ∈ acc
    · rw [if_pos hw] at hv
      have hstep : v ∈ acc ++ [w] → v ∈ acc ∨ (v ∈ w :: rest ∧ pyTruthy v = true) := by
        intro hin
        rcases List.mem_append.mp hin with h | h
        · exact Or.inl h
        · rw [List.mem_singleton] at h
          exact Or.inr ⟨by rw [h]; exact List.mem_cons_self w rest, h ▸ hw.1⟩
      by_cases hl : 5 ≤ (acc ++ [w]).length
      · rw [if_pos hl] at hv
        exact hstep hv
      · rw [if_neg hl] at hv
        rcases ih _ v hv with h | h
        · exact hstep h
        · exact Or.inr ⟨List.mem_cons_of_mem w h.1, h.2⟩
    · rw [if_neg hw] at hv
      by_cases hl : 5 ≤ acc.length
      · rw [if_pos hl] at hv
        exact Or.inl hv
      · rw [if_neg hl] at hv
        rcases ih acc v hv with h | h
        · exact Or.inl h
        · exact Or.inr ⟨List.mem_cons_of_mem w h.1, h.2⟩

theorem ctxValList_of_many_or_one (uv : List Value) (h : uv ≠ []) :
    ctxValList (if 1 < uv.length then CtxVal.many uv
      else CtxVal.one (uv.headD Value.vnone)) = uv := by
  cases uv with
  | nil => exact absurd rfl h
  | cons a t =>
    cases t with
    | nil => rw [if_neg (by simp)]; rfl
    | cons b t2 => rw [if_pos (by simp)]; rfl

theorem ctxValList_of_many_or_one_str (uv : List Str) (h : uv ≠ []) :
    ctxValList (if 1 < uv.length then CtxVal.many (uv.map Value.vstr)
      else CtxVal.one (Value.vstr (uv.headD []))) = uv.map Value.vstr := by
  cases uv with
  | nil => exact absurd rfl h
  | cons a t =>
    cases t with
    | nil => rw [if_neg (by simp)]; rfl
    | cons b t2 => rw [if_pos (by simp)]; rfl

theorem sqlKeyValuesFrom_spec (rows : List (List Value)) :
    ∀ (cs : List Str) (i : Nat) (col : Str) (cv : CtxVal),
      (col, cv) ∈ sqlKeyValuesFrom rows i cs →
      col ∈ KEY_COLUMNS ∧
      ∃ j : Nat, i ≤ j ∧ cs.get? (j - i) = some col ∧
        collectUniqueValues ((rows.take 10).map (fun r => r.getD j Value.vnone)) [] ≠ [] ∧
        cv = (if 1 < (collectUniqueValues
              ((rows.take 10).map (fun r => r.getD j Value.vnone)) []).length
          then CtxVal.many
            (collectUniqueValues ((rows.take 10).map (fun r => r.getD j Value.vnone)) [])
          else CtxVal.one ((collectUniqueValues
            ((rows.take 10).map (fun r => r.getD j Value.vnone)) []).headD Value.vnone)) := by
  intro cs
  induction cs with
  | nil =>
    intro i col cv h
    simp [sqlKeyValuesFrom] at h
  | cons c cs ih =>
    intro i col cv h
    unfold sqlKeyValuesFrom at h
    by_cases hk : c ∈ KEY_COLUMNS
    · rw [if_pos hk] at h
      by_cases huv :
          collectUniqueValues ((rows.take 10).map (fun r => r.getD i Value.vnone)) [] = []
      · rw [if_pos huv] at h
        obtain ⟨hkc, j, hij, hget, hne, hcv⟩ := ih (i + 1) col cv h
        refine ⟨hkc, j, by omega, ?_, hne, hcv⟩
        rw [show j - i = (j - (i + 1)) + 1 from by omega, List.get?_cons_succ]
        exact hget
      · rw [if_neg huv] at h
        rcases List.mem_cons.mp h with he | he
        · have hcol : col = c := congrArg Prod.fst he
          have hcv : cv = (if 1 < (collectUniqueValues
                ((rows.take 10).map (fun r => r.getD i Value.vnone)) []).length
              then CtxVal.many
                (collectUniqueValues ((rows.take 10).map (fun r => r.getD i Value.vnone)) [])
              else CtxVal.one ((collectUniqueValues
                ((rows.take 10).map (fun r => r.getD i Value.vnone)) []).headD Value.vnone)) :=
            congrArg Prod.snd he
          refine ⟨hcol ▸ hk, i, le_refl i, ?_, huv, hcv⟩
          rw [Nat.sub_self]
          rw [hcol]
          rfl
        · obtain ⟨hkc, j, hij, hget, hne, hcv⟩ := ih (i + 1) col cv he
          refine ⟨hkc, j, by omega, ?_, hne, hcv⟩
          rw [show j - i = (j - (i + 1)) + 1 from by omega, List.get?_cons_succ]
          exact hget
    · rw [if_neg hk] at h
      obtain ⟨hkc, j, hij, hget, hne, hcv⟩ := ih (i + 1) col cv h
      refine ⟨hkc, j, by omega, ?_, hne, hcv⟩
      rw [show j - i = (j - (i + 1)) + 1 from by omega, List.get?_cons_succ]
      exact hget

theorem csvKeyValuesFrom_spec (rows : List (List Value)) :
    ∀ (cs : List Str) (i : Nat) (col : Str) (cv : CtxVal),
      (col, cv) ∈ csvKeyValuesFrom rows i cs →
      col ∈ CSV_KEY_COLUMNS ∧
      ∃ j : Nat, i ≤ j ∧ cs.get? (j - i) = some col ∧
        csvUniqueValues ((rows.take 10).map (fun r => r.getD j Value.vnone)) ≠ [] ∧
        cv = (if 1 < (csvUniqueValues ((rows.take 10).map (fun r => r.getD j Value.vnone))).length
          then CtxVal.many ((csvUniqueValues
            ((rows.take 10).map (fun r => r.getD j Value.vnone))).map Value.vstr)
          else CtxVal.one (Value.vstr ((csvUniqueValues
            ((rows.take 10).map (fun r => r.getD j Value.vnone))).headD []))) := by
  intro cs
  induction cs with
  | nil =>
    intro i col cv h
    simp [csvKeyValuesFrom] at h
  | cons c cs ih =>
    intro i col cv h
    unfold csvKeyValuesFrom at h
    by_cases hk : c ∈ CSV_KEY_COLUMNS
    · rw [if_pos hk] at h
      by_cases huv : csvUniqueValues ((rows.take 10).map (fun r => r.getD i Value.vnone)) = []
      · rw [if_pos huv] at h
        obtain ⟨hkc, j, hij, hget, hne, hcv⟩ := ih (i + 1) col cv h
        refine ⟨hkc, j, by omega, ?_, hne, hcv⟩
        rw [show j - i = (j - (i + 1)) + 1 from by omega, List.get?_cons_succ]
        exact hget
      · rw [if_neg huv] at h
        rcases List.mem_cons.mp h with he | he
        · have hcol : col = c := congrArg Prod.fst he
          have hcv := congrArg Prod.snd he
          refine ⟨hcol ▸ hk, i, le_refl i, ?_, huv, hcv⟩
          rw [Nat.sub_self]
          rw [hcol]
          rfl
        · obtain ⟨hkc, j, hij, hget, hne, hcv⟩ := ih (i + 1) col cv he
          refine ⟨hkc, j, by omega, ?_, hne, hcv⟩
          rw [show j - i = (j - (i + 1)) + 1 from by omega, List.get?_cons_succ]
          exact hget
    · rw [if_neg hk] at h
      obtain ⟨hkc, j, hij, hget, hne, hcv⟩ := ih (i + 1) col cv h
      refine ⟨hkc, j, by omega, ?_, hne, hcv⟩
      rw [show j - i = (j - (i + 1)) + 1 from by omega, List.get?_cons_succ]
      exact hget

/-- C10 amended: both extractors build each key-column entry only from the
first 10 rows, deduplicated and capped at 5 values, and return no context when
no key column yields a value; the SQL extractor skips all falsy cells, while
the CSV extractor skips only None cells (keeping 0 and empty strings,
stringified — see the counterexample). -/
theorem C10_result_context_amended (columns : List Str) (rows : List (List Value))
    (col : Str) (cv : CtxVal) :
    ((col, cv) ∈ sqlKeyValues columns rows →
      col ∈ KEY_COLUMNS ∧
      (ctxValList cv).length ≤ 5 ∧
      (ctxValList cv).Nodup ∧
      ∀ v ∈ ctxValList cv, pyTruthy v = true ∧
        ∃ j : Nat, columns.get? j = some col ∧
          v ∈ (rows.take 10).map (fun r => r.getD j Value.vnone)) ∧
    ((col, cv) ∈ csvKeyValues columns rows →
      col ∈ CSV_KEY_COLUMNS ∧
      (ctxValList cv).length ≤ 5 ∧
      ∀ v ∈ ctxValList cv, ∃ u : Value, u ≠ Value.vnone ∧ v = Value.vstr (pyStr u) ∧
        ∃ j : Nat, columns.get? j = some col ∧
          u ∈ (rows.take 10).map (fun r => r.getD j Value.vnone)) ∧
    (2 ≤ rows.length → sqlKeyValues columns rows = [] →
      _extract_result_context ⟨false, columns, some rows⟩ = none) ∧
    (2 ≤ rows.length → csvKeyValues columns rows = [] →
      _extract_csv_result_context columns rows = none) := by
  refine ⟨?_, ?_, ?_, ?_⟩
  · intro hmem
    obtain ⟨hkc, j, hij, hget, hne, hcv⟩ := sqlKeyValuesFrom_spec rows columns 0 col cv hmem
    have hctx : ctxValList cv =
        collectUniqueValues ((rows.take 10).map (fun r => r.getD j Value.vnone)) [] := by
      rw [hcv]
      exact ctxValList_of_many_or_one _ hne
    refine ⟨hkc, ?_, ?_, ?_⟩
    · rw [hctx]
      exact collectUniqueValues_length _ [] (by simp)
    · rw [hctx]
      exact collectUniqueValues_nodup _ [] List.nodup_nil
    · intro v hv
      rw [hctx] at hv
      rcases collectUniqueValues_mem_spec _ [] v hv with h | h
      · exact absurd h (List.not_mem_nil v)
      · exact ⟨h.2, j, by simpa using hget, h.1⟩
  · intro hmem
    obtain ⟨hkc, j, hij, hget, hne, hcv⟩ := csvKeyValuesFrom_spec rows columns 0 col cv hmem
    have hctx : ctxValList cv =
        (csvUniqueValues ((rows.take 10).map (fun r => r.getD j Value.vnone))).map
          Value.vstr := by
      rw [hcv]
      exact ctxValList_of_many_or_one_str _ hne
    refine ⟨hkc, ?_, ?_⟩
    · rw [hctx, List.length_map]
      unfold csvUniqueValues
      exact List.length_take_le 5 _
    · intro v hv
      rw [hctx, List.mem_map] at hv
      obtain ⟨s0, hs0, hveq⟩ := hv
      unfold csvUniqueValues at hs0
      have hs1 := List.mem_dedup.mp (List.mem_of_mem_take hs0)
      rw [List.mem_map] at hs1
      obtain ⟨u, humem, hus⟩ := hs1
      rw [List.mem_filter] at humem
      refine ⟨u, by simpa using humem.2, ?_, j, by simpa using hget, humem.1⟩
      rw [← hveq, hus]
  · intro hlen hkv
    have h1 : rows ≠ [] := by
      intro h0
      rw [h0] at hlen
      simp at hlen
    have h2 : rows.length ≠ 1 := by omega
    show (if rows = [] then none
      else if rows.length = 1 then
        some (ResultContext.single (singleRowValues columns (rows.headD [])))
      else if sqlKeyValues columns rows = [] then none
      else some (ResultContext.multi rows.length (sqlKeyValues columns rows))) =
        (none : Option ResultContext)
    rw [if_neg h1, if_neg h2, if_pos hkv]
  · intro hlen hkv
    have h1 : rows ≠ [] := by
      intro h0
      rw [h0] at hlen
      simp at hlen
    have h2 : rows.length ≠ 1 := by omega
    show (if rows = [] then none
      else if rows.length = 1 then
        some (ResultContext.single (singleRowValues columns (rows.headD [])))
      else if csvKeyValues columns rows = [] then none
      else some (ResultContext.multi rows.length (csvKeyValues columns rows))) =
        (none : Option ResultContext)
    rw [if_neg h1, if_neg h2, if_pos hkv]

/-- Witness for C10 amended: a concrete multi-row result whose key column
collects two values satisfies the cap. -/
theorem C10_result_context_amended_witness :
    (ctxValList (CtxVal.many [Value.vstr (chars "a"), Value.vstr (chars "b")])).length ≤ 5 :=
  ((C10_result_context_amended [chars "Vendor Name"]
    [[Value.vstr (chars "a")], [Value.vstr (chars "b")]]
    (chars "Vendor Name") (CtxVal.many [Value.vstr (chars "a"), Value.vstr (chars "b")])).1
    (by decide)).2.1
